import Mathlib

/-!
Shallow embedding of the foldable greeting-card layout computations of
CardGenerator (the `handleDownloadPDF` handler in `src/unnamed/part_002`,
with the earlier revision in `src/unnamed/part_001`).

All linear measures are in inches, modelled as exact rationals; the source
works with JavaScript numbers, whose values at these magnitudes coincide
with the rational results for every computation analysed here.
-/

/-- A rectangle `{x, y, width, height}` on a page, in inches. -/
structure Rect where
  x : ℚ
  y : ℚ
  width : ℚ
  height : ℚ
  deriving DecidableEq, Repr

/-- `const pageWidth = 11` in `handleDownloadPDF`. -/
def pageWidth : ℚ := 11

/-- `const pageHeight = 8.5` in `handleDownloadPDF`. -/
def pageHeight : ℚ := 8.5

/-- `const halfWidth = pageWidth / 2` in `handleDownloadPDF`. -/
def halfWidth : ℚ := pageWidth / 2

/-- A page size `{width, height}`, generalising the source's fixed
US-letter landscape constants. -/
structure PageGeometry where
  width : ℚ
  height : ℚ
  deriving DecidableEq, Repr

/-- The fold position and the two panels a fold splits a page into. -/
structure FoldGeometry where
  foldX : ℚ
  leftPanel : Rect
  rightPanel : Rect
  deriving DecidableEq, Repr

/-- Fold geometry as computed in `handleDownloadPDF`: the fold sits at
`page.width / 2`, the left panel is the left half of the page and the
right panel the right half. -/
def computeFoldGeometry (page : PageGeometry) : FoldGeometry :=
  { foldX := page.width / 2
    leftPanel := { x := 0, y := 0, width := page.width / 2, height := page.height }
    rightPanel := { x := page.width / 2, y := 0, width := page.width / 2, height := page.height } }

/-- The fold line drawn on page 1:
`pdf.line(halfWidth, 0, halfWidth, pageHeight)`. -/
def foldLineSegPage1 : (ℚ × ℚ) × (ℚ × ℚ) := ((halfWidth, 0), (halfWidth, pageHeight))

/-- The fold line drawn on page 2, from the identical call after
`pdf.addPage`. -/
def foldLineSegPage2 : (ℚ × ℚ) × (ℚ × ℚ) := ((halfWidth, 0), (halfWidth, pageHeight))

/-- An image's intrinsic pixel dimensions. -/
structure ImageSpec where
  intrinsicWidth : ℚ
  intrinsicHeight : ℚ
  deriving DecidableEq, Repr

/-- The right panel of the source's fixed page, the target area for the
front-cover artwork. -/
def frontPanelTarget : Rect :=
  (computeFoldGeometry { width := pageWidth, height := pageHeight }).rightPanel

/-- The rectangle the source draws the artwork into:
`pdf.addImage(generatedImage, "PNG", halfWidth, 0, halfWidth, pageHeight)`.
The call never consults the image's intrinsic dimensions. -/
def frontCoverPlacement (_image : ImageSpec) : Rect :=
  { x := halfWidth, y := 0, width := halfWidth, height := pageHeight }

/-- One entry of the `FONT_SIZES` table. -/
structure FontSizeOption where
  id : String
  size : ℚ
  deriving DecidableEq, Repr

/-- The `FONT_SIZES` table of the source. -/
def FONT_SIZES : List FontSizeOption :=
  [{ id := "small", size := 10 },
   { id := "medium", size := 14 },
   { id := "large", size := 18 }]

/-- `FONT_SIZES.find(f => f.id === messageFontSize) || FONT_SIZES[1]`:
resolve a font tier, defaulting to the medium entry. -/
def fontSizeConfig (messageFontSize : String) : FontSizeOption :=
  (FONT_SIZES.find? fun f => f.id == messageFontSize).getD { id := "medium", size := 14 }

/-- `const messageMarginX = 0.75`. -/
def messageMarginX : ℚ := 0.75

/-- `const messageStartX = halfWidth + messageMarginX`. -/
def messageStartX : ℚ := halfWidth + messageMarginX

/-- `const messageMaxWidth = halfWidth - (messageMarginX * 2)`. -/
def messageMaxWidth : ℚ := halfWidth - messageMarginX * 2

/-- `const lineHeightInches = (fontSizeConfig.size * 1.4) / 72`. -/
def lineHeightInches (size : ℚ) : ℚ := size * 1.4 / 72

/-- `const availableHeight = pageHeight - 2` (1-inch margin top and bottom). -/
def availableHeight : ℚ := pageHeight - 2

/-- `const maxLines = Math.floor(availableHeight / lineHeightInches)`. -/
def maxLinesFor (lh : ℚ) : ℕ := (⌊availableHeight / lh⌋).toNat

/-- `const startY = 2` of the writing-lines fallback. -/
def writingLineStartY : ℚ := 2

/-- `const lineSpacing = 0.5` of the writing-lines fallback. -/
def writingLineSpacing : ℚ := 0.5

/-- The y-coordinates of the ten guide lines drawn by the fallback loop
`for (let i = 0; i < 10; i++) pdf.line(..., startY + i * lineSpacing, ...)`. -/
def writingLineYs : List ℚ :=
  (List.range 10).map fun i => writingLineStartY + i * writingLineSpacing

/-- `s.trim()` of JavaScript: strip leading and trailing whitespace.
Written structurally over the character list so it evaluates by `decide`. -/
def jsTrim (s : String) : String :=
  String.mk (((s.data.dropWhile Char.isWhitespace).reverse.dropWhile Char.isWhitespace).reverse)

/-- The content placed on the inside-right panel: either the rendered
message block or the ruled writing-lines fallback. -/
inductive InsideRightLayout where
  | textBlock (lines : List String) (lineHeight startY : ℚ) (truncated : Bool)
  | writingLines (ys : List ℚ) (startX endX : ℚ)
  deriving DecidableEq, Repr

/-- The inside-right branch of `handleDownloadPDF`. `wrap` stands for
`pdf.splitTextToSize`, which the source delegates line breaking to. -/
def layoutInsideRight (wrap : String → ℚ → List String)
    (insideMessage : String) (messageFontSize : String) : InsideRightLayout :=
  if jsTrim insideMessage ≠ "" then
    let cfg := fontSizeConfig messageFontSize
    let lh := lineHeightInches cfg.size
    let lines := wrap insideMessage messageMaxWidth
    let startY := max 1 ((pageHeight - (lines.length : ℚ) * lh) / 2)
    let m := maxLinesFor lh
    .textBlock (lines.take m) lh startY (decide (m < lines.length))
  else
    .writingLines writingLineYs messageStartX (pageWidth - messageMarginX)

/-- The lines actually rendered by the layout (empty for the fallback). -/
def InsideRightLayout.renderedLines : InsideRightLayout → List String
  | .textBlock ls _ _ _ => ls
  | .writingLines _ _ _ => []

/-- Whether the layout flagged truncation (the source adds the `"..."`
indicator exactly when `lines.length > maxLines`). -/
def InsideRightLayout.isTruncated : InsideRightLayout → Bool
  | .textBlock _ _ _ t => t
  | .writingLines _ _ _ => false

/-- The vertical start coordinate of the rendered text block. -/
def InsideRightLayout.blockStartY : InsideRightLayout → ℚ
  | .textBlock _ _ s _ => s
  | .writingLines _ _ _ => 0

/-- Whether the layout produced a text block rather than the fallback. -/
def InsideRightLayout.isTextBlock : InsideRightLayout → Bool
  | .textBlock _ _ _ _ => true
  | .writingLines _ _ _ => false

/-- Render a line from its words, separated by single spaces. -/
def lineStr (ws : List String) : String := String.intercalate " " ws

/-- Modelled from the spec: the text-wrapping step itself is performed by
`pdf.splitTextToSize`, whose implementation is not part of this repository.
Following the spec's contract, words are accumulated greedily onto the
current line while the measured line still fits `maxWidth`; a word that
does not fit starts a new line, and a word is never split. `cur` is the
current (nonempty) line under construction. -/
def wrapAux (measure : String → ℚ) (maxWidth : ℚ) :
    List String → List String → List (List String)
  | [], cur => [cur]
  | w :: rest, cur =>
    if measure (lineStr (cur ++ [w])) ≤ maxWidth then
      wrapAux measure maxWidth rest (cur ++ [w])
    else
      cur :: wrapAux measure maxWidth rest [w]

/-- Modelled from the spec: wrap a whitespace-tokenised word sequence into
lines (each line a list of words). -/
def wrapWords (measure : String → ℚ) (maxWidth : ℚ) : List String → List (List String)
  | [] => []
  | w :: rest => wrapAux measure maxWidth rest [w]

theorem wrapAux_join (measure : String → ℚ) (maxWidth : ℚ) :
    ∀ (ws cur : List String), (wrapAux measure maxWidth ws cur).join = cur ++ ws
  | [], cur => by simp [wrapAux]
  | w :: rest, cur => by
    unfold wrapAux
    by_cases h : measure (lineStr (cur ++ [w])) ≤ maxWidth
    · simp [h, wrapAux_join measure maxWidth rest (cur ++ [w])]
    · simp [h, wrapAux_join measure maxWidth rest [w]]

theorem wrapAux_lines_fit (measure : String → ℚ) (maxWidth : ℚ) :
    ∀ (ws cur : List String), cur ≠ [] →
      (2 ≤ cur.length → measure (lineStr cur) ≤ maxWidth) →
      ∀ l ∈ wrapAux measure maxWidth ws cur,
        l ≠ [] ∧ (2 ≤ l.length → measure (lineStr l) ≤ maxWidth)
  | [], cur, hne, hfit => by
    intro l hl
    simp [wrapAux] at hl
    subst hl
    exact ⟨hne, hfit⟩
  | w :: rest, cur, hne, hfit => by
    unfold wrapAux
    by_cases h : measure (lineStr (cur ++ [w])) ≤ maxWidth
    · simp only [if_pos h]
      exact wrapAux_lines_fit measure maxWidth rest (cur ++ [w]) (by simp) (fun _ => h)
    · simp only [if_neg h]
      intro l hl
      rcases List.mem_cons.mp hl with rfl | hl
      · exact ⟨hne, hfit⟩
      · exact wrapAux_lines_fit measure maxWidth rest [w] (by simp) (by simp) l hl

theorem wrapWords_join (measure : String → ℚ) (maxWidth : ℚ) (ws : List String) :
    (wrapWords measure maxWidth ws).join = ws := by
  cases ws with
  | nil => simp [wrapWords]
  | cons w rest => simp [wrapWords, wrapAux_join]

theorem wrapWords_lines_fit (measure : String → ℚ) (maxWidth : ℚ) (ws : List String) :
    ∀ l ∈ wrapWords measure maxWidth ws,
      l ≠ [] ∧ (2 ≤ l.length → measure (lineStr l) ≤ maxWidth) := by
  cases ws with
  | nil => simp [wrapWords]
  | cons w rest =>
    exact wrapAux_lines_fit measure maxWidth rest [w] (by simp) (by simp)

theorem fontSizeConfig_medium_eq :
    fontSizeConfig "medium" = { id := "medium", size := 14 } := rfl

theorem maxLines_medium_eq : maxLinesFor (lineHeightInches 14) = 23 := by
  norm_num [maxLinesFor, availableHeight, lineHeightInches, pageHeight]
  rfl

theorem writingLineYs_eq :
    writingLineYs = [2, 5/2, 3, 7/2, 4, 9/2, 5, 11/2, 6, 13/2] := by
  simp [writingLineYs, List.range_succ, writingLineStartY, writingLineSpacing]
  norm_num

/-- Claim C8: for every page with positive width and height, the fold sits at
`width / 2`, the left panel is `{0, 0, foldX, height}` and the right panel
`{foldX, 0, foldX, height}`, the panel widths sum to the page width, both
panels have the page's height, and page 1 and page 2 use the same fold
geometry. -/
theorem fold_panels (page : PageGeometry) (hw : 0 < page.width) (hh : 0 < page.height) :
    (computeFoldGeometry page).foldX = page.width / 2 ∧
    (computeFoldGeometry page).leftPanel
      = { x := 0, y := 0, width := page.width / 2, height := page.height } ∧
    (computeFoldGeometry page).rightPanel
      = { x := page.width / 2, y := 0, width := page.width / 2, height := page.height } ∧
    (computeFoldGeometry page).leftPanel.width + (computeFoldGeometry page).rightPanel.width
      = page.width ∧
    (computeFoldGeometry page).leftPanel.height = page.height ∧
    (computeFoldGeometry page).rightPanel.height = page.height ∧
    foldLineSegPage1 = foldLineSegPage2 := by
  refine ⟨rfl, rfl, rfl, ?_, rfl, rfl, rfl⟩
  show page.width / 2 + page.width / 2 = page.width
  ring

/-- Witness for `fold_panels` at the source's US-letter landscape page. -/
theorem fold_panels_witness :
    (0 : ℚ) < 11 ∧ (0 : ℚ) < (8.5 : ℚ) ∧
    ((computeFoldGeometry { width := 11, height := 8.5 }).foldX = (11 : ℚ) / 2 ∧
     (computeFoldGeometry { width := 11, height := 8.5 }).leftPanel
       = { x := 0, y := 0, width := (11 : ℚ) / 2, height := (8.5 : ℚ) } ∧
     (computeFoldGeometry { width := 11, height := 8.5 }).rightPanel
       = { x := (11 : ℚ) / 2, y := 0, width := (11 : ℚ) / 2, height := (8.5 : ℚ) } ∧
     (computeFoldGeometry { width := 11, height := 8.5 }).leftPanel.width
         + (computeFoldGeometry { width := 11, height := 8.5 }).rightPanel.width = (11 : ℚ) ∧
     (computeFoldGeometry { width := 11, height := 8.5 }).leftPanel.height = (8.5 : ℚ) ∧
     (computeFoldGeometry { width := 11, height := 8.5 }).rightPanel.height = (8.5 : ℚ) ∧
     foldLineSegPage1 = foldLineSegPage2) :=
  ⟨by norm_num, by norm_num,
   fold_panels { width := 11, height := 8.5 } (by norm_num) (by norm_num)⟩

/-- Claim C9: the front-cover artwork placement rectangle is the constant
full right panel `{5.5, 0, 5.5, 8.5}` for every image, independent of the
image's intrinsic dimensions (and of any message input, which the placement
never consults). -/
theorem front_cover_constant (image other : ImageSpec) :
    frontCoverPlacement image = { x := 5.5, y := 0, width := 5.5, height := 8.5 } ∧
    frontCoverPlacement image = frontCoverPlacement other ∧
    (5.5 : ℚ) = pageWidth / 2 := by
  refine ⟨?_, rfl, ?_⟩ <;>
    simp [frontCoverPlacement, halfWidth, pageWidth, pageHeight, Rect.mk.injEq] <;> norm_num

/-- Counterexample to claim C1: for the image `{1000, 1500}` (both intrinsic
dimensions positive) and the front-cover target panel (positive width and
height), the placement rectangle's aspect quotient `width / height` differs
from the image's `intrinsicWidth / intrinsicHeight`, so the placement does
not preserve the intrinsic aspect quotient. -/
theorem front_cover_aspect_cex :
    (0 : ℚ) < 1000 ∧ (0 : ℚ) < 1500 ∧
    0 < frontPanelTarget.width ∧ 0 < frontPanelTarget.height ∧
    (frontCoverPlacement { intrinsicWidth := 1000, intrinsicHeight := 1500 }).width
        / (frontCoverPlacement { intrinsicWidth := 1000, intrinsicHeight := 1500 }).height
      ≠ (1000 : ℚ) / 1500 := by
  norm_num [frontCoverPlacement, frontPanelTarget, computeFoldGeometry, halfWidth,
    pageWidth, pageHeight]

/-- Claim C1 as amended: for every ImageSpec, the front-cover placement
rectangle is the full target panel itself — fully contained in the target
with `width = target.width` and `height = target.height`, so it fills both
dimensions and touches all four edges; the image's intrinsic aspect ratio,
however, is not preserved in general. -/
theorem front_cover_fills_panel (image : ImageSpec) :
    frontCoverPlacement image = frontPanelTarget ∧
    frontPanelTarget.x ≤ (frontCoverPlacement image).x ∧
    frontPanelTarget.y ≤ (frontCoverPlacement image).y ∧
    (frontCoverPlacement image).x + (frontCoverPlacement image).width
      ≤ frontPanelTarget.x + frontPanelTarget.width ∧
    (frontCoverPlacement image).y + (frontCoverPlacement image).height
      ≤ frontPanelTarget.y + frontPanelTarget.height ∧
    (frontCoverPlacement image).width = frontPanelTarget.width ∧
    (frontCoverPlacement image).height = frontPanelTarget.height := by
  refine ⟨rfl, le_refl _, le_refl _, le_refl _, le_refl _, rfl, rfl⟩

/-- Counterexample to claim C7: for the image `{1000, 0}` with
`intrinsicHeight = 0`, the placement computation signals nothing and still
returns the full-panel rectangle. -/
theorem zero_height_image_cex :
    ({ intrinsicWidth := 1000, intrinsicHeight := 0 } : ImageSpec).intrinsicHeight = 0 ∧
    frontCoverPlacement { intrinsicWidth := 1000, intrinsicHeight := 0 } = frontPanelTarget :=
  ⟨rfl, rfl⟩

/-- Claim C7 as amended: for every ImageSpec with a non-positive intrinsic
dimension, no validation occurs and no error is signalled: the placement is
still the constant full right panel. -/
theorem nonpositive_image_no_validation (image : ImageSpec)
    (h : image.intrinsicWidth ≤ 0 ∨ image.intrinsicHeight ≤ 0) :
    frontCoverPlacement image = frontPanelTarget := rfl

/-- Witness for `nonpositive_image_no_validation` at the image `{1000, 0}`. -/
theorem nonpositive_image_no_validation_witness :
    (({ intrinsicWidth := 1000, intrinsicHeight := 0 } : ImageSpec).intrinsicWidth ≤ 0 ∨
     ({ intrinsicWidth := 1000, intrinsicHeight := 0 } : ImageSpec).intrinsicHeight ≤ 0) ∧
    frontCoverPlacement { intrinsicWidth := 1000, intrinsicHeight := 0 } = frontPanelTarget :=
  ⟨Or.inr (by norm_num), nonpositive_image_no_validation _ (Or.inr (by norm_num))⟩

/-- Claim C3: for every non-empty message, `maxLines` is
`floor(availableHeight / lineHeight)` — for the medium tier (size 14) on the
8.5-inch panel it equals 23 — and whenever the wrapped line count exceeds
`maxLines`, exactly the first `maxLines` lines are rendered and the layout
is marked truncated. -/
theorem message_truncation (wrap : String → ℚ → List String) (msg tier : String)
    (hmsg : jsTrim msg ≠ "")
    (hover : maxLinesFor (lineHeightInches (fontSizeConfig tier).size)
              < (wrap msg messageMaxWidth).length) :
    maxLinesFor (lineHeightInches 14) = 23 ∧
    (layoutInsideRight wrap msg tier).renderedLines
      = (wrap msg messageMaxWidth).take
          (maxLinesFor (lineHeightInches (fontSizeConfig tier).size)) ∧
    (layoutInsideRight wrap msg tier).isTruncated = true := by
  refine ⟨maxLines_medium_eq, ?_, ?_⟩
  · simp [layoutInsideRight, hmsg, InsideRightLayout.renderedLines]
  · simp [layoutInsideRight, hmsg, InsideRightLayout.isTruncated, hover]

/-- Witness for `message_truncation`: a message wrapping to 30 lines at the
medium tier renders exactly 23 lines and is marked truncated. -/
theorem message_truncation_witness :
    jsTrim "hello" ≠ "" ∧
    (maxLinesFor (lineHeightInches 14) = 23 ∧
     (layoutInsideRight (fun _ _ => List.replicate 30 "x") "hello" "medium").renderedLines
       = (List.replicate 30 "x").take
           (maxLinesFor (lineHeightInches (fontSizeConfig "medium").size)) ∧
     (layoutInsideRight (fun _ _ => List.replicate 30 "x") "hello" "medium").isTruncated
       = true) :=
  ⟨by decide,
   message_truncation (fun _ _ => List.replicate 30 "x") "hello" "medium" (by decide)
     (by rw [fontSizeConfig_medium_eq]
         rw [show ({ id := "medium", size := 14 } : FontSizeOption).size = 14 from rfl,
           maxLines_medium_eq]
         norm_num)⟩

/-- Claim C6: for every non-empty message, the text block's vertical start
coordinate equals `max(1, (panelHeight - lineCount * lineHeight) / 2)`, so
the block is vertically centred and never starts above the 1-inch top
margin. -/
theorem message_vertical_centering (wrap : String → ℚ → List String) (msg tier : String)
    (hmsg : jsTrim msg ≠ "") :
    (layoutInsideRight wrap msg tier).blockStartY
      = max 1 ((pageHeight - ((wrap msg messageMaxWidth).length : ℚ)
                  * lineHeightInches (fontSizeConfig tier).size) / 2) ∧
    1 ≤ (layoutInsideRight wrap msg tier).blockStartY := by
  constructor
  · simp [layoutInsideRight, hmsg, InsideRightLayout.blockStartY]
  · simp [layoutInsideRight, hmsg, InsideRightLayout.blockStartY]

/-- Witness for `message_vertical_centering` on a two-line message. -/
theorem message_vertical_centering_witness :
    jsTrim "hello" ≠ "" ∧
    ((layoutInsideRight (fun _ _ => ["a", "b"]) "hello" "medium").blockStartY
       = max 1 ((pageHeight - (([("a" : String), "b"].length : ℕ) : ℚ)
                   * lineHeightInches (fontSizeConfig "medium").size) / 2) ∧
     1 ≤ (layoutInsideRight (fun _ _ => ["a", "b"]) "hello" "medium").blockStartY) :=
  ⟨by decide, message_vertical_centering (fun _ _ => ["a", "b"]) "hello" "medium" (by decide)⟩

/-- Claim C5: for every empty or whitespace-only message, the inside-right
panel is the writing-lines fallback: exactly 10 strictly increasing guide
y-coordinates, evenly spaced by `lineSpacing = 0.5` from the top margin at
`y = 2`, all within the panel's vertical bounds, confined horizontally to
`[panel.x + inset, panel.x + panel.width - inset]`. -/
theorem empty_message_writing_lines (wrap : String → ℚ → List String)
    (msg tier : String) (hmsg : jsTrim msg = "") :
    layoutInsideRight wrap msg tier
      = .writingLines writingLineYs messageStartX (pageWidth - messageMarginX) ∧
    writingLineYs.length = 10 ∧
    List.Chain' (fun a b => a < b) writingLineYs ∧
    (∀ y ∈ writingLineYs,
       frontPanelTarget.y ≤ y ∧ y ≤ frontPanelTarget.y + frontPanelTarget.height) ∧
    (∀ i : ℕ, i < 10 →
       writingLineYs.getD i 0 = writingLineStartY + (i : ℚ) * writingLineSpacing) ∧
    messageStartX = frontPanelTarget.x + messageMarginX ∧
    pageWidth - messageMarginX = frontPanelTarget.x + frontPanelTarget.width - messageMarginX := by
  refine ⟨by simp [layoutInsideRight, hmsg], by rw [writingLineYs_eq]; rfl, ?_, ?_, ?_, ?_, ?_⟩
  · rw [writingLineYs_eq]
    simp [List.chain'_cons]
    norm_num
  · intro y hy
    rw [writingLineYs_eq] at hy
    fin_cases hy <;>
      norm_num [frontPanelTarget, computeFoldGeometry, pageWidth, pageHeight]
  · intro i hi
    rw [writingLineYs_eq]
    interval_cases i <;>
      norm_num [writingLineStartY, writingLineSpacing]
  · norm_num [messageStartX, frontPanelTarget, computeFoldGeometry, halfWidth,
      pageWidth, messageMarginX]
  · norm_num [frontPanelTarget, computeFoldGeometry, halfWidth, pageWidth, messageMarginX]

/-- Witness for `empty_message_writing_lines` on the whitespace-only
message made of a single space. -/
theorem empty_message_writing_lines_witness :
    jsTrim " " = "" ∧
    (layoutInsideRight (fun s _ => [s]) " " "medium"
       = .writingLines writingLineYs messageStartX (pageWidth - messageMarginX) ∧
     writingLineYs.length = 10 ∧
     List.Chain' (fun a b => a < b) writingLineYs ∧
     (∀ y ∈ writingLineYs,
        frontPanelTarget.y ≤ y ∧ y ≤ frontPanelTarget.y + frontPanelTarget.height) ∧
     (∀ i : ℕ, i < 10 →
        writingLineYs.getD i 0 = writingLineStartY + (i : ℚ) * writingLineSpacing) ∧
     messageStartX = frontPanelTarget.x + messageMarginX ∧
     pageWidth - messageMarginX
       = frontPanelTarget.x + frontPanelTarget.width - messageMarginX) :=
  ⟨by decide, empty_message_writing_lines (fun s _ => [s]) " " "medium" (by decide)⟩

/-- Counterexample to claim C2: with the unrecognized font tier `"huge"` and
a non-empty message, the layout produces an ordinary text block — identical
to the medium-tier layout — instead of signalling `InvalidMessageSpec`
before computing any geometry. -/
theorem unknown_tier_cex :
    layoutInsideRight (fun s _ => [s]) "hi" "huge"
      = layoutInsideRight (fun s _ => [s]) "hi" "medium" ∧
    (layoutInsideRight (fun s _ => [s]) "hi" "huge").isTextBlock = true :=
  ⟨rfl, rfl⟩

/-- Claim C2 as amended: for every fontTier outside the three recognized
values, the layout raises no error: the tier silently resolves to the
medium configuration (size 14) and the layout is the one produced with
fontTier = medium. -/
theorem unknown_tier_fallback (tier : String)
    (h1 : tier ≠ "small") (h2 : tier ≠ "medium") (h3 : tier ≠ "large") :
    fontSizeConfig tier = { id := "medium", size := 14 } ∧
    ∀ (wrap : String → ℚ → List String) (msg : String),
      layoutInsideRight wrap msg tier = layoutInsideRight wrap msg "medium" := by
  have e1 : (({ id := "small", size := 10 } : FontSizeOption).id == tier) = false :=
    beq_eq_false_iff_ne.mpr fun h => h1 h.symm
  have e2 : (({ id := "medium", size := 14 } : FontSizeOption).id == tier) = false :=
    beq_eq_false_iff_ne.mpr fun h => h2 h.symm
  have e3 : (({ id := "large", size := 18 } : FontSizeOption).id == tier) = false :=
    beq_eq_false_iff_ne.mpr fun h => h3 h.symm
  have hcfg : fontSizeConfig tier = { id := "medium", size := 14 } := by
    simp [fontSizeConfig, FONT_SIZES, List.find?, e1, e2, e3]
  refine ⟨hcfg, ?_⟩
  intro wrap msg
  unfold layoutInsideRight
  rw [hcfg]
  rfl

/-- Witness for `unknown_tier_fallback` at the tier `"huge"`. -/
theorem unknown_tier_fallback_witness :
    ("huge" ≠ "small" ∧ "huge" ≠ "medium" ∧ "huge" ≠ "large") ∧
    (fontSizeConfig "huge" = { id := "medium", size := 14 } ∧
     ∀ (wrap : String → ℚ → List String) (msg : String),
       layoutInsideRight wrap msg "huge" = layoutInsideRight wrap msg "medium") :=
  ⟨⟨by decide, by decide, by decide⟩,
   unknown_tier_fallback "huge" (by decide) (by decide) (by decide)⟩

/-- Claim C10: for every fontTier outside the three recognized values, the
layout silently falls back to the medium configuration — the whole
inside-right layout equals the one for fontTier = medium — and no error is
signalled (a non-empty message still yields a text block). -/
theorem silent_medium_fallback (wrap : String → ℚ → List String) (msg tier : String)
    (h1 : tier ≠ "small") (h2 : tier ≠ "medium") (h3 : tier ≠ "large") :
    layoutInsideRight wrap msg tier = layoutInsideRight wrap msg "medium" ∧
    (jsTrim msg ≠ "" → (layoutInsideRight wrap msg tier).isTextBlock = true) := by
  have e1 : (({ id := "small", size := 10 } : FontSizeOption).id == tier) = false :=
    beq_eq_false_iff_ne.mpr fun h => h1 h.symm
  have e2 : (({ id := "medium", size := 14 } : FontSizeOption).id == tier) = false :=
    beq_eq_false_iff_ne.mpr fun h => h2 h.symm
  have e3 : (({ id := "large", size := 18 } : FontSizeOption).id == tier) = false :=
    beq_eq_false_iff_ne.mpr fun h => h3 h.symm
  have hcfg : fontSizeConfig tier = { id := "medium", size := 14 } := by
    simp [fontSizeConfig, FONT_SIZES, List.find?, e1, e2, e3]
  constructor
  · unfold layoutInsideRight
    rw [hcfg]
    rfl
  · intro hmsg
    simp [layoutInsideRight, hmsg, InsideRightLayout.isTextBlock]

/-- Witness for `silent_medium_fallback` at the tier `"huge"` and the
message `"dear"`. -/
theorem silent_medium_fallback_witness :
    ("huge" ≠ "small" ∧ "huge" ≠ "medium" ∧ "huge" ≠ "large") ∧
    (layoutInsideRight (fun s _ => [s]) "dear" "huge"
       = layoutInsideRight (fun s _ => [s]) "dear" "medium" ∧
     (jsTrim "dear" ≠ "" →
       (layoutInsideRight (fun s _ => [s]) "dear" "huge").isTextBlock = true)) :=
  ⟨⟨by decide, by decide, by decide⟩,
   silent_medium_fallback (fun s _ => [s]) "dear" "huge"
     (by decide) (by decide) (by decide)⟩

/-- Claim C4: wrapping breaks only at whitespace (word) boundaries — the
lines' words concatenate back to the original word sequence, so no word is
ever split or hyphenated; every line holding at least two words measures
within `maxWidth`; and a word wider than `maxWidth` whose width is reflected
in its line's measure stands on a line of its own, un-split. -/
theorem wrap_breaks_only_at_words (measure : String → ℚ) (maxWidth : ℚ)
    (ws : List String) :
    (wrapWords measure maxWidth ws).join = ws ∧
    (∀ l ∈ wrapWords measure maxWidth ws,
       l ≠ [] ∧ (2 ≤ l.length → measure (lineStr l) ≤ maxWidth)) ∧
    (∀ l ∈ wrapWords measure maxWidth ws, ∀ w ∈ l,
       maxWidth < measure w → measure w ≤ measure (lineStr l) → l = [w]) := by
  refine ⟨wrapWords_join measure maxWidth ws, wrapWords_lines_fit measure maxWidth ws, ?_⟩
  intro l hl w hw hwide hmono
  obtain ⟨hne, hfit⟩ := wrapWords_lines_fit measure maxWidth ws l hl
  have hlen : l.length = 1 := by
    rcases Nat.lt_or_ge l.length 2 with hlt | hge
    · have h0 : l.length ≠ 0 := fun h => hne (List.length_eq_zero.mp h)
      omega
    · exact absurd (lt_of_lt_of_le hwide (le_trans hmono (hfit hge))) (lt_irrefl _)
  obtain ⟨a, rfl⟩ := List.length_eq_one.mp hlen
  rcases List.mem_singleton.mp hw with rfl
  rfl

/-- Witness for `wrap_breaks_only_at_words` with a character-count measure,
width 5, and a word list containing an over-wide word. -/
theorem wrap_breaks_only_at_words_witness :
    (wrapWords (fun s => (s.length : ℚ)) 5 ["ab", "cd", "extremelylong"]).join
      = ["ab", "cd", "extremelylong"] ∧
    (∀ l ∈ wrapWords (fun s => (s.length : ℚ)) 5 ["ab", "cd", "extremelylong"],
       l ≠ [] ∧ (2 ≤ l.length → ((lineStr l).length : ℚ) ≤ 5)) ∧
    (∀ l ∈ wrapWords (fun s => (s.length : ℚ)) 5 ["ab", "cd", "extremelylong"], ∀ w ∈ l,
       (5 : ℚ) < (w.length : ℚ) → ((w.length : ℚ) ≤ ((lineStr l).length : ℚ)) → l = [w]) :=
  wrap_breaks_only_at_words (fun s => (s.length : ℚ)) 5 ["ab", "cd", "extremelylong"]
